import Mathlib

/-!
Verification of the match-scoring and recommendation engine of the Dishaa
career-development application.

The definitions below are a shallow embedding of the JavaScript sources
`backend/services/aiService.js`, `backend/models/Course.js` and the job
recommendation route.  JavaScript numbers are modelled by `JSNum` (a rational
number or NaN); `Math.random()` is modelled by an explicit tape `ℕ → ℚ` of
draws in `[0,1)`, indexed in the order the source calls `Math.random()`;
`new Date()` / timestamps are modelled by an explicit `now` parameter.
-/

/-- A JavaScript number as used by the scoring code: either a finite value
(modelled exactly as a rational) or NaN.  Infinities do not arise in the
embedded code: the only divisions are by a list length (where the numerator
is a filtered sublist, hence `0` whenever the denominator is `0`, giving
`0/0 = NaN`) or by nonzero constants. -/
inductive JSNum where
  | num (q : ℚ)
  | nan
deriving DecidableEq, Repr

/-- JavaScript `+` on numbers: NaN propagates. -/
def JSNum.add : JSNum → JSNum → JSNum
  | .num a, .num b => .num (a + b)
  | _, _ => .nan

/-- JavaScript `-` on numbers: NaN propagates. -/
def JSNum.sub : JSNum → JSNum → JSNum
  | .num a, .num b => .num (a - b)
  | _, _ => .nan

/-- JavaScript `*` on numbers: NaN propagates. -/
def JSNum.mul : JSNum → JSNum → JSNum
  | .num a, .num b => .num (a * b)
  | _, _ => .nan

/-- JavaScript `/` on numbers.  A zero denominator yields NaN; in the embedded
code the numerator is `0` whenever the denominator is `0` (a filtered list is
empty when the filtered-over list is), so the JS `±Infinity` cases for
`x/0, x ≠ 0` are unreachable and not modelled. -/
def JSNum.div : JSNum → JSNum → JSNum
  | .num a, .num b => if b = 0 then .nan else .num (a / b)
  | _, _ => .nan

/-- JavaScript `Math.floor`: NaN propagates. -/
def JSNum.jsFloor : JSNum → JSNum
  | .num a => .num (Int.floor a)
  | .nan => .nan

/-- JavaScript `Math.min`: returns NaN if either argument is NaN. -/
def JSNum.min2 : JSNum → JSNum → JSNum
  | .num a, .num b => .num (min a b)
  | _, _ => .nan

/-- JavaScript `Math.max`: returns NaN if either argument is NaN. -/
def JSNum.max2 : JSNum → JSNum → JSNum
  | .num a, .num b => .num (max a b)
  | _, _ => .nan

/-- JavaScript `String.prototype.toLowerCase` restricted to the ASCII strings
appearing in the embedded code: lower-cases every character. -/
def jsToLower (s : String) : String := String.mk (s.data.map Char.toLower)

/-- Helper for JS `String.prototype.includes`: is `sub` a prefix of `l`? -/
def listStartsWith : List Char → List Char → Bool
  | [], _ => true
  | _ :: _, [] => false
  | a :: as, b :: bs => a = b && listStartsWith as bs

/-- Helper for JS `String.prototype.includes`: does `sub` occur inside `l`? -/
def listContainsSub (sub : List Char) : List Char → Bool
  | [] => sub.isEmpty
  | l@(_ :: rest) => listStartsWith sub l || listContainsSub sub rest

/-- JavaScript `s.includes(sub)` (substring containment). -/
def jsIncludes (s sub : String) : Bool := listContainsSub sub.toList s.toList

/-- A user skill as consumed by the scoring code: only `name` and
`proficiencyLevel` are ever read. -/
structure Skill where
  name : String
  proficiencyLevel : String
deriving DecidableEq, Repr

/-- A job object of the shape stored in `DUMMY_JOBS` in aiService.js. -/
structure DummyJob where
  title : String
  company : String
  location : String
  salary : String
  matchScore : ℤ
  requiredSkills : List String
deriving DecidableEq, Repr

/-- The `DUMMY_JOBS` constant of aiService.js. -/
def DUMMY_JOBS : List DummyJob :=
  [ { title := "Senior Frontend Developer", company := "TechCorp Inc.",
      location := "San Francisco, CA", salary := "$120,000 - $150,000",
      matchScore := 92, requiredSkills := ["React", "JavaScript", "TypeScript"] },
    { title := "Full Stack Engineer", company := "Innovation Labs",
      location := "Remote", salary := "$100,000 - $130,000",
      matchScore := 88, requiredSkills := ["Node.js", "React", "MongoDB"] },
    { title := "DevOps Engineer", company := "CloudTech Solutions",
      location := "Austin, TX", salary := "$110,000 - $140,000",
      matchScore := 85, requiredSkills := ["AWS", "Docker", "Kubernetes"] } ]

/-- The skills subscore expression of `calculateJobMatchScore`:
`matchingSkills.length / job.requiredSkills.length` (before the `* 30`
scaling).  `0/0 = NaN` when the required list is empty. -/
def jobSkillsSubscore (job : DummyJob) (userSkills : List Skill) : JSNum :=
  let matchingSkills := job.requiredSkills.filter (fun required =>
    userSkills.any (fun user => jsToLower user.name = jsToLower required))
  JSNum.div (.num matchingSkills.length) (.num job.requiredSkills.length)

/-- `calculateJobMatchScore(job, userSkills, userExperience)` of aiService.js:
base 60, plus the skill-match ratio scaled by 30, plus 10 when the
approximated years of experience (`userExperience.length * 2`) reach 3,
floored and clamped above at 100. -/
def calculateJobMatchScore (job : DummyJob) (userSkills : List Skill)
    (userExperience : List String) : JSNum :=
  let score0 : JSNum := .num 60
  let score1 := score0.add ((jobSkillsSubscore job userSkills).mul (.num 30))
  let yearsOfExperience := userExperience.length * 2
  let score2 := if yearsOfExperience ≥ 3 then score1.add (.num 10) else score1
  (score2.jsFloor).min2 (.num 100)

/-- `findMissingSkills(requiredSkills, userSkills)` of aiService.js. -/
def findMissingSkills (requiredSkills : List String) (userSkills : List Skill) :
    List String :=
  let userSkillNames := userSkills.map (fun s => jsToLower s.name)
  requiredSkills.filter (fun required => ¬ userSkillNames.contains (jsToLower required))

/-- An entry of the role→required-skills registry in aiService.js
(`getRequiredSkillsForRole`): name, level, priority. -/
structure RoleSkill where
  name : String
  level : String
  priority : String
deriving DecidableEq, Repr

/-- The `'Frontend Developer'` entry of the `roleSkills` registry. -/
def frontendDeveloperSkills : List RoleSkill :=
  [ { name := "React", level := "advanced", priority := "high" },
    { name := "JavaScript", level := "advanced", priority := "high" },
    { name := "CSS", level := "intermediate", priority := "medium" },
    { name := "TypeScript", level := "intermediate", priority := "medium" } ]

/-- The `'Full Stack Developer'` entry of the `roleSkills` registry. -/
def fullStackDeveloperSkills : List RoleSkill :=
  [ { name := "React", level := "intermediate", priority := "high" },
    { name := "Node.js", level := "intermediate", priority := "high" },
    { name := "Database Design", level := "intermediate", priority := "medium" },
    { name := "API Development", level := "intermediate", priority := "high" } ]

/-- The `roleSkills` object literal of `getRequiredSkillsForRole`, as an
association list (the literal is used purely as a string-keyed dictionary). -/
def roleSkills : List (String × List RoleSkill) :=
  [ ("Frontend Developer", frontendDeveloperSkills),
    ("Full Stack Developer", fullStackDeveloperSkills) ]

/-- `getRequiredSkillsForRole(role)` of aiService.js:
`roleSkills[role] || roleSkills['Frontend Developer']`. -/
def getRequiredSkillsForRole (role : String) : List RoleSkill :=
  (roleSkills.lookup role).getD frontendDeveloperSkills

/-- One step of `generateLearningPath`'s output. -/
structure LearningStep where
  step : ℕ
  skill : String
  estimatedTime : String
  resources : List String
  priority : String
deriving DecidableEq, Repr

/-- `List.map` with the element index, starting at `i` (models JS
`Array.prototype.map((x, index) => ...)` and lets a `Math.random` tape be
indexed by call order). -/
def mapIdxFrom (f : ℕ → α → β) (i : ℕ) : List α → List β
  | [] => []
  | a :: as => f i a :: mapIdxFrom f (i + 1) as

/-- `generateLearningPath(skillGaps)` of aiService.js.  The estimated time
draws `Math.floor(Math.random() * 4 + 2)` once per gap, in list order; `tape
i` is the `i`-th draw. -/
def generateLearningPath (tape : ℕ → ℚ) (skillGaps : List RoleSkill) :
    List LearningStep :=
  mapIdxFrom (fun index skill =>
    { step := index + 1,
      skill := skill.name,
      estimatedTime := toString (Int.floor (tape index * 4 + 2)) ++ " weeks",
      resources := ["Online Course", "Practice Project", "Certification"],
      priority := skill.priority }) 0 skillGaps

/-- The result object of `analyzeSkillGaps`. -/
structure SkillGapReport where
  targetRole : String
  overallReadiness : ℤ
  skillGaps : List RoleSkill
  existingStrengths : List RoleSkill
  recommendedLearningPath : List LearningStep
  estimatedTimeToReadiness : String
  prioritySkills : List RoleSkill
deriving DecidableEq, Repr

/-- The `gaps` list computed inside `analyzeSkillGaps`: required template
skills whose lower-cased name is not among the lower-cased profile skill
names. -/
def skillGapsOf (currentSkills : List Skill) (targetRole : String) :
    List RoleSkill :=
  let currentSkillNames := currentSkills.map (fun s => jsToLower s.name)
  (getRequiredSkillsForRole targetRole).filter (fun required =>
    ¬ currentSkillNames.contains (jsToLower required.name))

/-- The `strengths` list computed inside `analyzeSkillGaps`. -/
def skillStrengthsOf (currentSkills : List Skill) (targetRole : String) :
    List RoleSkill :=
  let currentSkillNames := currentSkills.map (fun s => jsToLower s.name)
  (getRequiredSkillsForRole targetRole).filter (fun required =>
    currentSkillNames.contains (jsToLower required.name))

/-- `analyzeSkillGaps(currentSkills, targetRole)` of aiService.js.  The tape
models the `Math.random` draws made by `generateLearningPath`. -/
def analyzeSkillGaps (tape : ℕ → ℚ) (currentSkills : List Skill)
    (targetRole : String) : SkillGapReport :=
  let gaps := skillGapsOf currentSkills targetRole
  let strengths := skillStrengthsOf currentSkills targetRole
  { targetRole := targetRole,
    overallReadiness := max (100 - (gaps.length * 15 : ℤ)) 0,
    skillGaps := gaps,
    existingStrengths := strengths,
    recommendedLearningPath := generateLearningPath tape gaps,
    estimatedTimeToReadiness :=
      toString (gaps.length * 2) ++ "-" ++ toString (gaps.length * 3) ++ " months",
    prioritySkills := gaps.take 3 }

/-- Stable insertion into a list sorted descending by `key`: the new element
`x` (which originates earlier in the input than every element of the list)
goes before the first element whose key is `≤ key x`.  This models the
ECMAScript stable `Array.prototype.sort` with comparator
`(a, b) => b.score - a.score`. -/
def insertDescBy (key : α → ℚ) (x : α) : List α → List α
  | [] => [x]
  | y :: ys => if key y ≤ key x then x :: y :: ys else y :: insertDescBy key x ys

/-- Stable sort, descending by `key`: the model of
`.sort((a, b) => b.score - a.score)` used by `recommendCourses`,
`recommendJobs` and the `GET /recommendations/:userId` route.  ECMAScript
guarantees a stable sort consistent with the comparator. -/
def sortByDesc (key : α → ℚ) : List α → List α
  | [] => []
  | x :: xs => insertDescBy key x (sortByDesc key xs)

/-- A course object of the shape stored in `DUMMY_COURSES` in aiService.js. -/
structure DummyCourse where
  id : String
  title : String
  provider : String
  duration : ℕ
  rating : ℚ
  relevanceScore : ℚ
deriving DecidableEq, Repr

/-- The `DUMMY_COURSES` constant of aiService.js. -/
def DUMMY_COURSES : List DummyCourse :=
  [ { id := "1", title := "Advanced React Development", provider := "Coursera",
      duration := 40, rating := 47/10, relevanceScore := 9/10 },
    { id := "2", title := "AWS Cloud Practitioner", provider := "edX",
      duration := 25, rating := 45/10, relevanceScore := 8/10 },
    { id := "3", title := "Python for Data Science", provider := "Udemy",
      duration := 35, rating := 46/10, relevanceScore := 85/100 } ]

/-- `parseFloat(x.toFixed(2))` for the nonnegative scores of
`recommendCourses`: decimal rounding to 2 places, half away from zero. -/
def toFixed2 (q : ℚ) : ℚ := (Int.floor (q * 100 + 1/2) : ℚ) / 100

/-- `generateRecommendationReason(course, userSkills, careerPath)` of
aiService.js; `r` is the `Math.random()` draw it makes
(`reasons[Math.floor(r * reasons.length)]`). -/
def generateRecommendationReason (r : ℚ) (course : DummyCourse)
    (userSkills : List Skill) (careerPath : String) : String :=
  let reasons := [
    "Essential for " ++ careerPath ++ " roles",
    "Highly rated by industry professionals",
    "Covers key skills missing from your profile",
    "Popular among successful career changers",
    "Recommended by top companies in your field"]
  reasons.getD (Int.floor (r * 5)).toNat ""

/-- `calculateEstimatedImpact(course, careerPath)` of aiService.js; `r` is its
`Math.random()` draw. -/
def calculateEstimatedImpact (r : ℚ) (course : DummyCourse)
    (careerPath : String) : String :=
  let impacts := ["High", "Medium", "Medium-High"]
  impacts.getD (Int.floor (r * 3)).toNat ""

/-- `assignDifficulty(course, userSkills)` of aiService.js; `r` is its
`Math.random()` draw. -/
def assignDifficulty (r : ℚ) (course : DummyCourse) (userSkills : List Skill) :
    String :=
  let difficulties := ["Beginner", "Intermediate", "Advanced"]
  difficulties.getD (Int.floor (r * 3)).toNat ""

/-- `generateSkillsGained(course)` of aiService.js. -/
def generateSkillsGained (course : DummyCourse) : List String :=
  let skillSets := [
    ("Advanced React Development",
      ["React Hooks", "Context API", "Performance Optimization", "Testing"]),
    ("AWS Cloud Practitioner", ["EC2", "S3", "Lambda", "CloudFormation"]),
    ("Python for Data Science", ["Pandas", "NumPy", "Matplotlib", "Machine Learning"])]
  (skillSets.lookup course.title).getD ["Problem Solving", "Critical Thinking"]

/-- An element of `recommendCourses`' result: the spread dummy course plus the
computed recommendation fields. -/
structure CourseRec where
  id : String
  title : String
  provider : String
  duration : ℕ
  rating : ℚ
  relevanceScore : ℚ
  reason : String
  estimatedImpact : String
  difficulty : String
  timeToComplete : String
  skillsGained : List String
deriving DecidableEq, Repr

/-- `options.limit || 10` of `recommendCourses` (`0` is falsy in JS). -/
def effectiveLimit : Option ℕ → ℕ
  | none => 10
  | some 0 => 10
  | some n => n

/-- `recommendCourses(userSkills, careerPath, options)` of aiService.js.
Each course consumes four `Math.random()` draws in source order —
relevance base (`tape (4*i)`), reason (`4*i+1`), estimated impact (`4*i+2`),
difficulty (`4*i+3`).  The base relevance is `r * 0.4 + 0.6`, boosted by
`0.2` (capped at `1.0`) when the course/user touches one of the hard-coded
`courseSkills`, then rounded via `toFixed(2)`; results are sorted descending
by relevance and truncated to `options.limit || 10`. -/
def recommendCourses (tape : ℕ → ℚ) (userSkills : List Skill)
    (careerPath : String) (limit : Option ℕ) : List CourseRec :=
  let userSkillNames := userSkills.map (fun skill => jsToLower skill.name)
  let recommendations := mapIdxFrom (fun i course =>
    let relevanceScore0 := tape (4 * i) * (4/10) + 6/10
    let courseSkills := ["react", "aws", "python", "javascript", "node.js"]
    let hasRelevantSkills := courseSkills.any (fun skill =>
      userSkillNames.contains skill || jsIncludes (jsToLower course.title) skill)
    let relevanceScore1 :=
      if hasRelevantSkills then min (relevanceScore0 + 2/10) 1 else relevanceScore0
    { id := course.id, title := course.title, provider := course.provider,
      duration := course.duration, rating := course.rating,
      relevanceScore := toFixed2 relevanceScore1,
      reason := generateRecommendationReason (tape (4 * i + 1)) course userSkills careerPath,
      estimatedImpact := calculateEstimatedImpact (tape (4 * i + 2)) course careerPath,
      difficulty := assignDifficulty (tape (4 * i + 3)) course userSkills,
      timeToComplete := toString course.duration ++ " hours",
      skillsGained := generateSkillsGained course }) 0 DUMMY_COURSES
  (sortByDesc (fun rec => rec.relevanceScore) recommendations).take (effectiveLimit limit)

/-- `generateMatchReasons(job, userSkills, userExperience)` of aiService.js;
`r` is its `Math.random()` draw (`Math.floor(r * 5 + 3)`). -/
def generateMatchReasons (r : ℚ) (job : DummyJob) (userSkills : List Skill)
    (userExperience : List String) : List String :=
  [ toString (Int.floor (r * 5 + 3)) ++ " of your skills match requirements",
    "Your experience level aligns with job requirements",
    "Company culture matches your preferences" ]

/-- `generateApplicationTips(job, resumeData)` of aiService.js.
`job.requiredSkills[0]` is `undefined` for an empty list, which a JS template
literal renders as the string `"undefined"`. -/
def generateApplicationTips (job : DummyJob) : List String :=
  [ "Highlight your " ++ job.requiredSkills.headD "undefined" ++
      " experience in your cover letter",
    "Mention specific projects that demonstrate problem-solving skills",
    "Research the company\x27s recent projects and mention relevant ones" ]

/-- The object returned by `generateSalaryInsights`. -/
structure SalaryInsights where
  marketRange : String
  negotiationTips : List String
  comparison : String
deriving DecidableEq, Repr

/-- `generateSalaryInsights(job, resumeData)` of aiService.js. -/
def generateSalaryInsights (job : DummyJob) : SalaryInsights :=
  { marketRange := job.salary,
    negotiationTips := [
      "Based on your experience, you could negotiate for the higher end",
      "Consider asking about additional benefits if salary is fixed"],
    comparison := "This is 5% above market average for your experience level" }

/-- The object returned by `generateCompanyInsights`. -/
structure CompanyInsights where
  size : String
  industry : String
  rating : ℚ
  benefits : List String
  culture : List String
deriving DecidableEq, Repr

/-- `generateCompanyInsights(company)` of aiService.js. -/
def generateCompanyInsights (company : String) : CompanyInsights :=
  { size := "Medium (200-500 employees)", industry := "Technology",
    rating := 42/10,
    benefits := ["Health Insurance", "Remote Work", "401k Matching"],
    culture := ["Innovation-focused", "Work-life balance", "Learning opportunities"] }

/-- `generateApplicationDeadline()` of aiService.js: today plus
`Math.floor(r * 30 + 7)` days.  The source formats the date as an ISO date
string; the embedding keeps the day number (`nowDays` = current day count). -/
def generateApplicationDeadline (r : ℚ) (nowDays : ℤ) : ℤ :=
  nowDays + Int.floor (r * 30 + 7)

/-- `generatePostedDate()` of aiService.js: today minus
`Math.floor(r * 14 + 1)` days, kept as a day number as above. -/
def generatePostedDate (r : ℚ) (nowDays : ℤ) : ℤ :=
  nowDays - Int.floor (r * 14 + 1)

/-- The digit string captured by the salary regex
`/\$(\d+),?(\d+)?/` of `recommendJobs`: at the first `$` followed by at
least one digit, the digits, skipping one optional comma between the two
digit groups.  `none` models a failed match (JS then computes `NaN`). -/
def findDollarNum : List Char → Option (List Char)
  | [] => none
  | c :: rest =>
    if c = '$' then
      let d1 := (rest.span (fun ch => ch.isDigit)).1
      let rest1 := (rest.span (fun ch => ch.isDigit)).2
      if d1.isEmpty then findDollarNum rest
      else
        some (d1 ++ (match rest1 with
          | ',' :: r => (r.span (fun ch => ch.isDigit)).1
          | _ => []))
    else findDollarNum rest

/-- `parseInt` of a digit string. -/
def parseDigits (l : List Char) : ℕ :=
  l.foldl (fun acc c => acc * 10 + (c.toNat - Char.toNat '0')) 0

/-- The `jobSalaryMin` computation of `recommendJobs`:
`parseInt(match[1] + (match[2] || '')) * 1000` over the salary display
string; `none` when the regex does not match (JS `NaN`). -/
def parseSalaryMin (s : String) : Option ℤ :=
  (findDollarNum s.toList).map (fun ds => (parseDigits ds : ℤ) * 1000)

/-- The `preferences` argument of `recommendJobs`: only `location` and
`salaryMin` are read (`remote` is passed by the route but never used).
`none` models an absent field. -/
structure JobPreferences where
  location : Option String
  salaryMin : Option ℤ
deriving DecidableEq, Repr

/-- The parts of `resumeData` read by `recommendJobs`. -/
structure ResumeData where
  skills : List Skill
  experience : List String
  personalInfoLocation : Option String
deriving DecidableEq, Repr

/-- An element of `recommendJobs`' result: the spread dummy job with the
recomputed `matchScore` plus the generated annotation fields. -/
structure JobRec where
  title : String
  company : String
  location : String
  salary : String
  matchScore : JSNum
  matchReasons : List String
  missingSkills : List String
  applicationTips : List String
  salaryInsights : SalaryInsights
  companyInsights : CompanyInsights
  applicationDeadline : ℤ
  postedDate : ℤ
deriving DecidableEq, Repr

/-- The sort key used to model the ECMAScript comparator
`(a, b) => b.matchScore - a.matchScore`.  All scores produced from
`DUMMY_JOBS` are numeric (every `requiredSkills` list is nonempty), so the
`nan` case — where ECMAScript's ordering is not consistent and not modelled
here — is unreachable. -/
def scoreKey : JSNum → ℚ
  | .num q => q
  | .nan => 0

/-- The `recommendations` array of `recommendJobs` before sorting: one record
per `DUMMY_JOBS` entry, with the location penalty (−15, floored at 0, for a
non-remote job not matching a truthy location preference) and the salary
penalty (−10, floored at 0, when the parsed `jobSalaryMin` is below a truthy
`salaryMin`) applied to the base match score.  Each job consumes three
`Math.random()` draws in source order: match reasons (`tape (3*i)`),
application deadline (`3*i+1`), posted date (`3*i+2`). -/
def recommendJobsUnsorted (tape : ℕ → ℚ) (nowDays : ℤ) (resumeData : ResumeData)
    (preferences : JobPreferences) : List JobRec :=
  let userSkills := resumeData.skills
  let userExperience := resumeData.experience
  mapIdxFrom (fun i job =>
    let matchScore0 := calculateJobMatchScore job userSkills userExperience
    let matchScore1 :=
      match preferences.location with
      | none => matchScore0
      | some loc =>
        if loc = "" then matchScore0
        else if ¬ jsIncludes (jsToLower job.location) "remote" then
          if jsIncludes (jsToLower job.location) (jsToLower loc) then matchScore0
          else (matchScore0.sub (.num 15)).max2 (.num 0)
        else matchScore0
    let matchScore2 :=
      match preferences.salaryMin with
      | none => matchScore1
      | some salaryMin =>
        if salaryMin = 0 then matchScore1
        else
          match parseSalaryMin job.salary with
          | none => matchScore1
          | some jobSalaryMin =>
            if jobSalaryMin < salaryMin then (matchScore1.sub (.num 10)).max2 (.num 0)
            else matchScore1
    { title := job.title, company := job.company, location := job.location,
      salary := job.salary,
      matchScore := matchScore2,
      matchReasons := generateMatchReasons (tape (3 * i)) job userSkills userExperience,
      missingSkills := findMissingSkills job.requiredSkills userSkills,
      applicationTips := generateApplicationTips job,
      salaryInsights := generateSalaryInsights job,
      companyInsights := generateCompanyInsights job.company,
      applicationDeadline := generateApplicationDeadline (tape (3 * i + 1)) nowDays,
      postedDate := generatePostedDate (tape (3 * i + 2)) nowDays }) 0 DUMMY_JOBS

/-- `recommendJobs(resumeData, preferences)` of aiService.js: the annotated
dummy jobs sorted descending by adjusted match score (stable sort). -/
def recommendJobs (tape : ℕ → ℚ) (nowDays : ℤ) (resumeData : ResumeData)
    (preferences : JobPreferences) : List JobRec :=
  sortByDesc (fun rec => scoreKey rec.matchScore)
    (recommendJobsUnsorted tape nowDays resumeData preferences)

/-- A skill taught by a course (`skillsTaught` entries have `name` and
`level` in the Course.js schema). -/
structure TaughtSkill where
  name : String
  level : String
deriving DecidableEq, Repr

/-- A course document as read by the `Course.js` model methods
(`popularityScore`, `isSuitableForUser`, `calculateRecommendationScore`).
`ratingAverage` and `completionRate` are optional in the schema; the methods
read them as `(this.rating.average || 0)` and
`(this.aiMetrics.completionRate || 0)`. -/
structure CourseDoc where
  title : String
  difficulty : String
  prerequisites : List String
  skillsTaught : List TaughtSkill
  careerPaths : List String
  jobRoles : List String
  qualityScore : ℚ
  enrollmentCount : ℚ
  ratingAverage : Option ℚ
  completionRate : Option ℚ
deriving DecidableEq, Repr

/-- The `popularityScore` virtual of Course.js:
`0.4 * min(enrollment/10000, 1) + 0.3 * (rating.average || 0)/5 +
0.3 * (completionRate || 0)`. -/
def popularityScore (c : CourseDoc) : ℚ :=
  let normalizedEnrollment := min (c.enrollmentCount / 10000) 1
  let normalizedRating := (c.ratingAverage.getD 0) / 5
  let normalizedCompletion := c.completionRate.getD 0
  normalizedEnrollment * (4/10) + normalizedRating * (3/10) +
    normalizedCompletion * (3/10)

/-- The user profile fields read by `calculateRecommendationScore` and
`isSuitableForUser`. -/
structure UserProfile where
  skills : List Skill
  targetJobTitle : String
deriving DecidableEq, Repr

/-- The skills subscore expression of `calculateRecommendationScore`:
`Math.min(skillsMatch / this.skillsTaught.length, 1)` (before the `* 0.4`
weighting).  `0/0 = NaN` when `skillsTaught` is empty, and
`Math.min(NaN, 1) = NaN`. -/
def courseSkillsSubscore (c : CourseDoc) (userProfile : UserProfile) : JSNum :=
  let skillsMatch := (c.skillsTaught.filter (fun courseSkill =>
    userProfile.skills.any (fun userSkill =>
      jsToLower userSkill.name = jsToLower courseSkill.name))).length
  (JSNum.div (.num skillsMatch) (.num c.skillsTaught.length)).min2 (.num 1)

/-- `calculateRecommendationScore(userProfile)` of Course.js: skills alignment
(40%), career-path alignment (30%), quality (20%), popularity (10%); the
result lives on a 0–1 scale. -/
def calculateRecommendationScore (c : CourseDoc) (userProfile : UserProfile) :
    JSNum :=
  let skillsScore := (courseSkillsSubscore c userProfile).mul (.num (4/10))
  let careerMatch : JSNum :=
    if c.careerPaths.contains userProfile.targetJobTitle ∨
       c.jobRoles.contains userProfile.targetJobTitle then .num (3/10) else .num 0
  let qualityScore : JSNum := (JSNum.num (c.qualityScore / 10)).mul (.num (2/10))
  let popularity : JSNum := (JSNum.num (popularityScore c)).mul (.num (1/10))
  ((skillsScore.add careerMatch).add qualityScore).add popularity

/-- The `hasPrerequisites` check of `isSuitableForUser`: every prerequisite is
covered by some user skill whose lower-cased name contains the lower-cased
prerequisite as a substring and whose proficiency is intermediate or
better. -/
def hasPrerequisitesFor (c : CourseDoc) (userSkills : List Skill) : Bool :=
  c.prerequisites.all (fun prereq =>
    userSkills.any (fun skill =>
      jsIncludes (jsToLower skill.name) (jsToLower prereq) &&
      ["intermediate", "advanced", "expert"].contains skill.proficiencyLevel))

/-- The `isDifficultyAppropriate` check of `isSuitableForUser`.  For an
experience level outside the `difficultyMatch` table the JS expression
`difficultyMatch[level]?.includes(...)` is `undefined` (falsy), modelled as
`false`. -/
def isDifficultyAppropriateFor (c : CourseDoc) (userExperienceLevel : String) :
    Bool :=
  let difficultyMatch : List (String × List String) :=
    [ ("entry", ["Beginner", "Intermediate"]),
      ("mid", ["Intermediate", "Advanced"]),
      ("senior", ["Advanced"]),
      ("executive", ["Advanced"]) ]
  ((difficultyMatch.lookup userExperienceLevel).getD []).contains c.difficulty

/-- `isSuitableForUser(userSkills, userExperienceLevel)` of Course.js:
`!this.prerequisites.length || (hasPrerequisites && isDifficultyAppropriate)`
(`&&` binds tighter than `||` in JS; a falsy `undefined` result for an
unknown experience level is modelled as `false`). -/
def isSuitableForUser (c : CourseDoc) (userSkills : List Skill)
    (userExperienceLevel : String) : Bool :=
  decide (c.prerequisites.length = 0) ||
    (hasPrerequisitesFor c userSkills && isDifficultyAppropriateFor c userExperienceLevel)

/-- One phase of `buildBeginnerRoadmap`'s output. -/
structure RoadmapPhase where
  phase : String
  focus : String
  skills : List String
  actions : List String
  recommendedCourses : List CourseRec
deriving DecidableEq, Repr

/-- `buildBeginnerRoadmap(targetRole, gaps, courses)` of aiService.js: a
literal list of three phases.  `gaps.prioritySkills` and `gaps.skillGaps` are
always arrays on an `analyzeSkillGaps` report, so the JS
`?. ... || [...]` fallbacks (which fire only on `undefined`, an empty array
being truthy) never fire and are not modelled. -/
def buildBeginnerRoadmap (targetRole : String) (gaps : SkillGapReport)
    (courses : List CourseRec) : List RoadmapPhase :=
  [ { phase := "Foundation (Weeks 1–4)",
      focus := "Core concepts and tooling",
      skills := (gaps.prioritySkills.take 2).map (fun s => s.name),
      actions := [
        "Complete a beginner-friendly course",
        "Set up a GitHub repo and make daily commits",
        "Build a basic project to apply fundamentals"],
      recommendedCourses := courses.take 2 },
    { phase := "Projects (Weeks 5–8)",
      focus := "Apply skills with real projects",
      skills := (gaps.skillGaps.take 3).map (fun s => s.name),
      actions := [
        "Build 2 small portfolio projects end-to-end",
        "Write clear README and deploy at least one project",
        "Ask for feedback and iterate"],
      recommendedCourses := (courses.drop 2).take 2 },
    { phase := "Job Readiness (Weeks 9–12)",
      focus := "Resume, interview prep, and polishing",
      skills := ["Communication", "Problem Solving", "System Design (basic)"],
      actions := [
        "Optimize resume for ATS with targeted keywords",
        "Practice 20–30 interview questions",
        "Network and apply to 5–10 roles/week"],
      recommendedCourses := (courses.drop 4).take 2 } ]

/-- One goal of `buildStarterGoals`' output (`targetDate` is a millisecond
timestamp, as produced by `new Date(now.getTime() + d*24*60*60*1000)`). -/
structure StarterGoal where
  id : String
  title : String
  description : String
  category : String
  targetDate : ℤ
  priority : String
  status : String
  progress : ℕ
  milestones : List String
  relatedSkills : List String
  measurableOutcome : String
deriving DecidableEq, Repr

/-- `buildStarterGoals(targetRole, gaps)` of aiService.js; `now` is the
millisecond timestamp `new Date().getTime()`.  Two goals, dated 21 and 30
days from now. -/
def buildStarterGoals (targetRole : String) (gaps : SkillGapReport)
    (now : ℤ) : List StarterGoal :=
  let inDays : ℤ → ℤ := fun d => now + d * 24 * 60 * 60 * 1000
  [ { id := "goal-" ++ toString now ++ "-1",
      title := "Complete a beginner course for " ++ targetRole,
      description := "Finish one curated course and take notes",
      category := "learning",
      targetDate := inDays 21,
      priority := "high", status := "not_started", progress := 0,
      milestones := ["Enroll", "Finish 50%", "Complete and summarize"],
      relatedSkills := (gaps.prioritySkills.map (fun s => s.name)).take 3,
      measurableOutcome := "Certificate of completion and notes" },
    { id := "goal-" ++ toString now ++ "-2",
      title := "Build and deploy one small project",
      description := "End-to-end project with README and live link",
      category := "project",
      targetDate := inDays 30,
      priority := "medium", status := "not_started", progress := 0,
      milestones := ["Plan", "Build", "Deploy", "Iterate"],
      relatedSkills := (gaps.skillGaps.map (fun s => s.name)).take 3,
      measurableOutcome := "Live URL in portfolio" } ]

/- Sample inputs used by witnesses and counterexamples. -/

/-- A job with an empty required-skill list (the degenerate input of C1/C2). -/
def emptyRequiredJob : DummyJob :=
  { title := "Intern", company := "Acme", location := "Remote",
    salary := "$10,000 - $20,000", matchScore := 0, requiredSkills := [] }

/-- A one-skill profile skill list. -/
def sampleSkills : List Skill := [{ name := "React", proficiencyLevel := "advanced" }]

/-- A course document teaching no skills (the degenerate input of C1/C2). -/
def emptySkillsCourse : CourseDoc :=
  { title := "Orientation", difficulty := "Beginner", prerequisites := [],
    skillsTaught := [], careerPaths := [], jobRoles := [],
    qualityScore := 8, enrollmentCount := 100, ratingAverage := some (9/2),
    completionRate := some (1/2) }

/-- A sample user profile. -/
def sampleProfile : UserProfile :=
  { skills := [{ name := "React", proficiencyLevel := "advanced" }],
    targetJobTitle := "Frontend Developer" }

/- Lemmas about the stable descending sort. -/

theorem mem_insertDescBy (key : α → ℚ) (x : α) (l : List α) (a : α) :
    a ∈ insertDescBy key x l ↔ a = x ∨ a ∈ l := by
  induction l with
  | nil => simp [insertDescBy]
  | cons y ys ih =>
    simp only [insertDescBy]
    split
    · simp [List.mem_cons]
    · simp only [List.mem_cons, ih]
      tauto

theorem pairwise_insertDescBy (key : α → ℚ) (x : α) (l : List α)
    (h : l.Pairwise (fun a b => key b ≤ key a)) :
    (insertDescBy key x l).Pairwise (fun a b => key b ≤ key a) := by
  induction l with
  | nil => simp [insertDescBy]
  | cons y ys ih =>
    rw [List.pairwise_cons] at h
    simp only [insertDescBy]
    split
    · rename_i hyx
      rw [List.pairwise_cons]
      refine ⟨?_, List.pairwise_cons.mpr h⟩
      intro b hb
      rcases List.mem_cons.mp hb with hb | hb
      · exact hb ▸ hyx
      · exact le_trans (h.1 b hb) hyx
    · rename_i hyx
      push_neg at hyx
      rw [List.pairwise_cons]
      refine ⟨?_, ih h.2⟩
      intro b hb
      rcases (mem_insertDescBy key x ys b).mp hb with hb | hb
      · exact hb ▸ le_of_lt hyx
      · exact h.1 b hb

theorem pairwise_sortByDesc (key : α → ℚ) (l : List α) :
    (sortByDesc key l).Pairwise (fun a b => key b ≤ key a) := by
  induction l with
  | nil => simp [sortByDesc]
  | cons x xs ih => exact pairwise_insertDescBy key x _ ih

theorem filter_insertDescBy (key : α → ℚ) (q : ℚ) (x : α) (l : List α) :
    (insertDescBy key x l).filter (fun a => decide (key a = q)) =
      if key x = q then x :: l.filter (fun a => decide (key a = q))
      else l.filter (fun a => decide (key a = q)) := by
  induction l with
  | nil =>
    by_cases hx : key x = q
    · simp [insertDescBy, List.filter, hx]
    · simp [insertDescBy, List.filter, hx]
  | cons y ys ih =>
    simp only [insertDescBy]
    split <;> rename_i hyx
    · by_cases hx : key x = q
      · simp [List.filter_cons, hx]
      · simp [List.filter_cons, hx]
    · push_neg at hyx
      by_cases hx : key x = q
      · have hy : key y ≠ q := by
          intro hy
          rw [hx, hy] at hyx
          exact lt_irrefl q hyx
        simp [List.filter_cons, ih, hx, hy]
      · simp [List.filter_cons, ih, hx]

theorem filter_sortByDesc (key : α → ℚ) (q : ℚ) (l : List α) :
    (sortByDesc key l).filter (fun a => decide (key a = q)) =
      l.filter (fun a => decide (key a = q)) := by
  induction l with
  | nil => rfl
  | cons x xs ih =>
    simp only [sortByDesc, filter_insertDescBy, List.filter_cons, ih]
    by_cases hx : key x = q
    · simp [hx]
    · simp [hx]

theorem map_insertDescBy_congr (key : α → ℚ) (g : α → γ) (x1 x2 : α)
    (hx : (key x1, g x1) = (key x2, g x2)) :
    ∀ (l1 l2 : List α),
      l1.map (fun a => (key a, g a)) = l2.map (fun a => (key a, g a)) →
      (insertDescBy key x1 l1).map (fun a => (key a, g a)) =
        (insertDescBy key x2 l2).map (fun a => (key a, g a)) := by
  have hkx : key x1 = key x2 := congrArg Prod.fst hx
  have hgx : g x1 = g x2 := congrArg Prod.snd hx
  intro l1
  induction l1 with
  | nil =>
    intro l2 hl
    cases l2 with
    | nil => simpa [insertDescBy] using hx
    | cons y2 t2 => simp at hl
  | cons y1 t1 ih =>
    intro l2 hl
    cases l2 with
    | nil => simp at hl
    | cons y2 t2 =>
      simp only [List.map_cons, List.cons.injEq] at hl
      have hky : key y1 = key y2 := congrArg Prod.fst hl.1
      have hgy : g y1 = g y2 := congrArg Prod.snd hl.1
      by_cases hc : key y2 ≤ key x2
      · simp only [insertDescBy, hky, hkx, if_pos hc, List.map_cons, List.cons.injEq]
        exact ⟨by rw [hgx], by rw [hgy], hl.2⟩
      · simp only [insertDescBy, hky, hkx, if_neg hc, List.map_cons, List.cons.injEq]
        exact ⟨by rw [hgy], ih t2 hl.2⟩

theorem map_sortByDesc_congr (key : α → ℚ) (g : α → γ) :
    ∀ (l1 l2 : List α),
      l1.map (fun a => (key a, g a)) = l2.map (fun a => (key a, g a)) →
      (sortByDesc key l1).map (fun a => (key a, g a)) =
        (sortByDesc key l2).map (fun a => (key a, g a)) := by
  intro l1
  induction l1 with
  | nil =>
    intro l2 hl
    cases l2 with
    | nil => rfl
    | cons y2 t2 => simp at hl
  | cons y1 t1 ih =>
    intro l2 hl
    cases l2 with
    | nil => simp at hl
    | cons y2 t2 =>
      simp only [List.map_cons, List.cons.injEq] at hl
      exact map_insertDescBy_congr key g y1 y2 hl.1 _ _ (ih t2 hl.2)

/-- C6: for every profile and every input list of scored entities, the
recommendation aggregator's sort (the model of
`.sort((a, b) => b.matchScore - a.matchScore)` used by `recommendJobs` and
the recommendations route) returns a list sorted in descending order of
adjusted score, and entities with equal adjusted score keep their relative
input order (stability, stated as: filtering the output at any fixed score
value gives exactly the same list as filtering the input); `recommendJobs`'
output is exactly this sort applied to its scored, annotated job list. -/
theorem recommendations_sorted_stable :
    (∀ {α : Type} (key : α → ℚ) (l : List α),
      (sortByDesc key l).Pairwise (fun a b => key b ≤ key a) ∧
      (∀ q : ℚ, (sortByDesc key l).filter (fun a => decide (key a = q)) =
        l.filter (fun a => decide (key a = q)))) ∧
    (∀ (tape : ℕ → ℚ) (nowDays : ℤ) (resumeData : ResumeData)
        (preferences : JobPreferences),
      recommendJobs tape nowDays resumeData preferences =
        sortByDesc (fun r => scoreKey r.matchScore)
          (recommendJobsUnsorted tape nowDays resumeData preferences)) := by
  refine ⟨fun key l => ⟨pairwise_sortByDesc key l, fun q => filter_sortByDesc key q l⟩,
    fun tape nowDays resumeData preferences => rfl⟩

/-- C3: for every profile-skill list and target role, the skill-gap analysis
returns `overallReadiness = max(0, 100 − 15·N)` where `N` is the number of
template skills with no case-insensitive name match among the profile skills;
readiness is never negative and is non-increasing in the gap count. -/
theorem overallReadiness_formula :
    ∀ (tape : ℕ → ℚ) (currentSkills : List Skill) (targetRole : String),
      (analyzeSkillGaps tape currentSkills targetRole).overallReadiness =
        max 0 (100 - 15 * ((skillGapsOf currentSkills targetRole).length : ℤ)) ∧
      0 ≤ (analyzeSkillGaps tape currentSkills targetRole).overallReadiness ∧
      (∀ (tape' : ℕ → ℚ) (skills' : List Skill) (role' : String),
        (skillGapsOf currentSkills targetRole).length ≤
            (skillGapsOf skills' role').length →
          (analyzeSkillGaps tape' skills' role').overallReadiness ≤
            (analyzeSkillGaps tape currentSkills targetRole).overallReadiness) := by
  intro tape currentSkills targetRole
  refine ⟨?_, ?_, ?_⟩
  · simp only [analyzeSkillGaps]
    omega
  · simp only [analyzeSkillGaps]
    omega
  · intro tape' skills' role' h
    simp only [analyzeSkillGaps]
    omega

/-- Witness for C3 at the spec's own scenario: a profile knowing React
against the Frontend Developer template (3 gaps, readiness 55), compared
with the empty profile (4 gaps, readiness 40). -/
theorem overallReadiness_formula_witness :
    (analyzeSkillGaps (fun _ => 0) [⟨"React", "advanced"⟩]
        "Frontend Developer").overallReadiness =
      max 0 (100 - 15 * ((skillGapsOf [⟨"React", "advanced"⟩]
        "Frontend Developer").length : ℤ)) ∧
    (analyzeSkillGaps (fun _ => 0) [] "Frontend Developer").overallReadiness ≤
      (analyzeSkillGaps (fun _ => 0) [⟨"React", "advanced"⟩]
        "Frontend Developer").overallReadiness := by
  refine ⟨(overallReadiness_formula (fun _ => 0) _ _).1, ?_⟩
  exact (overallReadiness_formula (fun _ => 0) [⟨"React", "advanced"⟩]
    "Frontend Developer").2.2 (fun _ => 0) [] "Frontend Developer" (by decide)

/-- C4: a profile skill matches a requirement exactly when their lower-cased
names are equal; `findMissingSkills` returns exactly the required names with
no such match, and in particular "React" matches "react" and vice versa. -/
theorem missingSkills_iff :
    (∀ (requiredSkills : List String) (userSkills : List Skill) (r : String),
      r ∈ findMissingSkills requiredSkills userSkills ↔
        (r ∈ requiredSkills ∧ ∀ s ∈ userSkills, jsToLower s.name ≠ jsToLower r)) ∧
    findMissingSkills ["react"] [⟨"React", "advanced"⟩] = [] ∧
    findMissingSkills ["React"] [⟨"react", "advanced"⟩] = [] := by
  refine ⟨?_, by decide, by decide⟩
  intro requiredSkills userSkills r
  simp only [findMissingSkills, List.mem_filter, decide_eq_true_eq, List.contains,
    List.elem_iff, List.mem_map, not_exists, not_and]

/-- Witness for C4: "aws" is missing for a profile with only Python. -/
theorem missingSkills_iff_witness :
    "aws" ∈ findMissingSkills ["aws"] [⟨"Python", "beginner"⟩] :=
  (missingSkills_iff.1 ["aws"] [⟨"Python", "beginner"⟩] "aws").mpr
    ⟨by decide, by decide⟩

/-- C8: for every target role string, the skill-gap analysis never fails: a
role absent from the registry resolves to the registry's Frontend Developer
template, and the analysis returns the same report as for "Frontend
Developer" (except for the echoed `targetRole` field), with the same output
shape. -/
theorem unknownRole_fallback :
    ∀ (tape : ℕ → ℚ) (currentSkills : List Skill) (targetRole : String),
      targetRole ≠ "Frontend Developer" → targetRole ≠ "Full Stack Developer" →
        getRequiredSkillsForRole targetRole = frontendDeveloperSkills ∧
        analyzeSkillGaps tape currentSkills targetRole =
          { analyzeSkillGaps tape currentSkills "Frontend Developer" with
              targetRole := targetRole } := by
  intro tape currentSkills targetRole h1 h2
  have b1 : (targetRole == "Frontend Developer") = false := beq_eq_false_iff_ne.mpr h1
  have b2 : (targetRole == "Full Stack Developer") = false := beq_eq_false_iff_ne.mpr h2
  have hlook : roleSkills.lookup targetRole = none := by
    simp [roleSkills, List.lookup, b1, b2]
  have hreq : getRequiredSkillsForRole targetRole = frontendDeveloperSkills := by
    simp [getRequiredSkillsForRole, hlook]
  have hfd : getRequiredSkillsForRole "Frontend Developer" =
      frontendDeveloperSkills := by
    simp [getRequiredSkillsForRole, roleSkills, List.lookup]
  exact ⟨hreq, by simp only [analyzeSkillGaps, skillGapsOf, skillStrengthsOf, hreq, hfd]⟩

/-- Witness for C8 at the unknown role "Data Scientist". -/
theorem unknownRole_fallback_witness :
    getRequiredSkillsForRole "Data Scientist" = frontendDeveloperSkills ∧
    analyzeSkillGaps (fun _ => 0) [] "Data Scientist" =
      { analyzeSkillGaps (fun _ => 0) [] "Frontend Developer" with
          targetRole := "Data Scientist" } :=
  unknownRole_fallback (fun _ => 0) [] "Data Scientist" (by decide) (by decide)

/-- C9: the roadmap builder always returns exactly 3 phases whose skill
slices use only the available gap entries (no padding), and the starter-goal
builder always returns exactly 2 goals dated 21 and 30 days after "now",
both strictly in the future. -/
theorem roadmap_and_goals_shape :
    ∀ (targetRole : String) (gaps : SkillGapReport) (courses : List CourseRec)
      (now : ℤ),
      (buildBeginnerRoadmap targetRole gaps courses).length = 3 ∧
      (buildBeginnerRoadmap targetRole gaps courses).map
          (fun ph => ph.skills.length) =
        [min 2 gaps.prioritySkills.length, min 3 gaps.skillGaps.length, 3] ∧
      (buildStarterGoals targetRole gaps now).length = 2 ∧
      (buildStarterGoals targetRole gaps now).map (fun goal => goal.targetDate) =
        [now + 21 * 86400000, now + 30 * 86400000] ∧
      (buildStarterGoals targetRole gaps now).all
        (fun goal => decide (now < goal.targetDate)) = true := by
  intro targetRole gaps courses now
  refine ⟨rfl, ?_, rfl, ?_, ?_⟩
  · simp [buildBeginnerRoadmap, List.length_take, List.length_map]
  · simp only [buildStarterGoals, List.map_cons, List.map_nil]
    norm_num
  · simp only [buildStarterGoals, List.all_cons, List.all_nil, Bool.and_true,
      Bool.and_eq_true, decide_eq_true_eq]
    omega

/-- C10: `isSuitableForUser` returns `true` whenever the course has no
prerequisites, independently of the user's experience level; the
difficulty-alignment check participates only when at least one prerequisite
is present. -/
theorem suitable_of_no_prereqs :
    (∀ (c : CourseDoc) (userSkills : List Skill) (lvl : String),
      c.prerequisites = [] → isSuitableForUser c userSkills lvl = true) ∧
    (∀ (c : CourseDoc) (userSkills : List Skill) (lvl lvl' : String),
      c.prerequisites = [] →
        isSuitableForUser c userSkills lvl = isSuitableForUser c userSkills lvl') ∧
    (∀ (c : CourseDoc) (userSkills : List Skill) (lvl : String),
      c.prerequisites ≠ [] →
        isSuitableForUser c userSkills lvl =
          (hasPrerequisitesFor c userSkills && isDifficultyAppropriateFor c lvl)) := by
  refine ⟨?_, ?_, ?_⟩
  · intro c userSkills lvl h
    simp [isSuitableForUser, h]
  · intro c userSkills lvl lvl' h
    simp [isSuitableForUser, h]
  · intro c userSkills lvl h
    simp [isSuitableForUser, List.length_eq_zero, h]

/-- A course with no prerequisites, for the C10 witness. -/
def noPrereqCourse : CourseDoc :=
  { title := "Intro to Programming", difficulty := "Advanced",
    prerequisites := [], skillsTaught := [], careerPaths := [], jobRoles := [],
    qualityScore := 5, enrollmentCount := 0, ratingAverage := none,
    completionRate := none }

/-- Witness for C10: the prerequisite-free course is suitable at every
experience level, and with a prerequisite added the conjunction decides. -/
theorem suitable_of_no_prereqs_witness :
    isSuitableForUser noPrereqCourse [] "entry" = true ∧
    isSuitableForUser noPrereqCourse [] "entry" =
      isSuitableForUser noPrereqCourse [] "executive" ∧
    isSuitableForUser { noPrereqCourse with prerequisites := ["CSS"] } [] "entry" =
      (hasPrerequisitesFor { noPrereqCourse with prerequisites := ["CSS"] } [] &&
        isDifficultyAppropriateFor { noPrereqCourse with prerequisites := ["CSS"] }
          "entry") :=
  ⟨suitable_of_no_prereqs.1 noPrereqCourse [] "entry" rfl,
    suitable_of_no_prereqs.2.1 noPrereqCourse [] "entry" "executive" rfl,
    suitable_of_no_prereqs.2.2 _ [] "entry" (by decide)⟩

/- Helper lemmas on the skills subscores, shared by the range theorems. -/

theorem jobSkillsSubscore_num (job : DummyJob) (userSkills : List Skill)
    (h : job.requiredSkills ≠ []) :
    ∃ q : ℚ, jobSkillsSubscore job userSkills = JSNum.num q ∧ 0 ≤ q ∧ q ≤ 1 := by
  have hn : job.requiredSkills.length ≠ 0 := fun h0 => h (List.length_eq_zero.mp h0)
  have hnQ : ((job.requiredSkills.length : ℚ)) ≠ 0 := Nat.cast_ne_zero.mpr hn
  have hnpos : (0 : ℚ) < job.requiredSkills.length :=
    Nat.cast_pos.mpr (Nat.pos_of_ne_zero hn)
  simp only [jobSkillsSubscore, JSNum.div, if_neg hnQ]
  refine ⟨_, rfl, div_nonneg (Nat.cast_nonneg _) (Nat.cast_nonneg _), ?_⟩
  rw [div_le_one hnpos]
  exact_mod_cast List.length_filter_le _ _

theorem jobSkillsSubscore_nan (job : DummyJob) (userSkills : List Skill)
    (h : job.requiredSkills = []) :
    jobSkillsSubscore job userSkills = JSNum.nan := by
  simp [jobSkillsSubscore, h, JSNum.div]

theorem courseSkillsSubscore_num (c : CourseDoc) (userProfile : UserProfile)
    (h : c.skillsTaught ≠ []) :
    ∃ q : ℚ, courseSkillsSubscore c userProfile = JSNum.num q ∧ 0 ≤ q ∧ q ≤ 1 := by
  have hn : c.skillsTaught.length ≠ 0 := fun h0 => h (List.length_eq_zero.mp h0)
  have hnQ : ((c.skillsTaught.length : ℚ)) ≠ 0 := Nat.cast_ne_zero.mpr hn
  simp only [courseSkillsSubscore, JSNum.div, if_neg hnQ, JSNum.min2]
  refine ⟨_, rfl, le_min (div_nonneg (Nat.cast_nonneg _) (Nat.cast_nonneg _))
    zero_le_one, min_le_right _ _⟩

theorem courseSkillsSubscore_nan (c : CourseDoc) (userProfile : UserProfile)
    (h : c.skillsTaught = []) :
    courseSkillsSubscore c userProfile = JSNum.nan := by
  simp [courseSkillsSubscore, h, JSNum.div, JSNum.min2]

theorem popularityScore_bounds (c : CourseDoc) (he : 0 ≤ c.enrollmentCount)
    (hr : ∀ r ∈ c.ratingAverage, 0 ≤ r ∧ r ≤ 5)
    (hc : ∀ cr ∈ c.completionRate, 0 ≤ cr ∧ cr ≤ 1) :
    0 ≤ popularityScore c ∧ popularityScore c ≤ 1 := by
  have h1 : 0 ≤ min (c.enrollmentCount / 10000) 1 :=
    le_min (div_nonneg he (by norm_num)) zero_le_one
  have h1' : min (c.enrollmentCount / 10000) 1 ≤ 1 := min_le_right _ _
  have h2 : 0 ≤ c.ratingAverage.getD 0 ∧ c.ratingAverage.getD 0 ≤ 5 := by
    cases hra : c.ratingAverage with
    | none => simp
    | some r => simpa using hr r (by simp [hra])
  have h3 : 0 ≤ c.completionRate.getD 0 ∧ c.completionRate.getD 0 ≤ 1 := by
    cases hcr : c.completionRate with
    | none => simp
    | some cr => simpa using hc cr (by simp [hcr])
  unfold popularityScore
  constructor <;> [nlinarith [h2.1, h3.1]; nlinarith [h2.2, h3.2]]

/-- C2 (counterexample): for an entity with an empty required-skill /
skills-taught list, the skills subscore is NaN (the division `0/0`), not the
claimed 1.0 — in both the job scorer and the course scorer. -/
theorem skills_subscore_empty_not_one :
    jobSkillsSubscore emptyRequiredJob sampleSkills = JSNum.nan ∧
    jobSkillsSubscore emptyRequiredJob sampleSkills ≠ JSNum.num 1 ∧
    courseSkillsSubscore emptySkillsCourse sampleProfile = JSNum.nan ∧
    courseSkillsSubscore emptySkillsCourse sampleProfile ≠ JSNum.num 1 := by
  exact ⟨by decide, by decide, by decide, by decide⟩

/-- C2 (amended): for a nonempty required-skill (resp. skills-taught) list
the skills subscore is the finite match ratio, between 0 and 1; for an empty
list both scorers produce NaN instead of the full-credit 1.0. -/
theorem skills_subscore_eq_ratio :
    (∀ (job : DummyJob) (userSkills : List Skill), job.requiredSkills ≠ [] →
      ∃ q : ℚ, jobSkillsSubscore job userSkills = JSNum.num q ∧ 0 ≤ q ∧ q ≤ 1) ∧
    (∀ (job : DummyJob) (userSkills : List Skill), job.requiredSkills = [] →
      jobSkillsSubscore job userSkills = JSNum.nan) ∧
    (∀ (c : CourseDoc) (userProfile : UserProfile), c.skillsTaught ≠ [] →
      ∃ q : ℚ, courseSkillsSubscore c userProfile = JSNum.num q ∧ 0 ≤ q ∧ q ≤ 1) ∧
    (∀ (c : CourseDoc) (userProfile : UserProfile), c.skillsTaught = [] →
      courseSkillsSubscore c userProfile = JSNum.nan) :=
  ⟨jobSkillsSubscore_num, jobSkillsSubscore_nan,
    courseSkillsSubscore_num, courseSkillsSubscore_nan⟩

/-- Witness for the amended C2 on the first dummy job and a one-skill
course. -/
theorem skills_subscore_eq_ratio_witness :
    (∃ q : ℚ, jobSkillsSubscore
        { title := "Senior Frontend Developer", company := "TechCorp Inc.",
          location := "San Francisco, CA", salary := "$120,000 - $150,000",
          matchScore := 92,
          requiredSkills := ["React", "JavaScript", "TypeScript"] }
        sampleSkills = JSNum.num q ∧ 0 ≤ q ∧ q ≤ 1) ∧
    jobSkillsSubscore emptyRequiredJob [] = JSNum.nan := by
  exact ⟨skills_subscore_eq_ratio.1 _ sampleSkills (by decide),
    skills_subscore_eq_ratio.2.1 emptyRequiredJob [] (by decide)⟩

theorem calculateJobMatchScore_range (job : DummyJob) (userSkills : List Skill)
    (userExperience : List String) (h : job.requiredSkills ≠ []) :
    ∃ n : ℤ, calculateJobMatchScore job userSkills userExperience = JSNum.num n ∧
      0 ≤ n ∧ n ≤ 100 := by
  obtain ⟨q, hq, hq0, hq1⟩ := jobSkillsSubscore_num job userSkills h
  by_cases hexp : userExperience.length * 2 ≥ 3
  · have harg : (0 : ℚ) ≤ 60 + q * 30 + 10 := by linarith
    refine ⟨min ⌊(60 : ℚ) + q * 30 + 10⌋ 100, ?_,
      le_min (Int.floor_nonneg.mpr harg) (by norm_num), min_le_right _ _⟩
    simp only [calculateJobMatchScore, hq, JSNum.mul, JSNum.add, if_pos hexp,
      JSNum.jsFloor, JSNum.min2]
    congr 1
    push_cast
    ring_nf
  · have harg : (0 : ℚ) ≤ 60 + q * 30 := by linarith
    refine ⟨min ⌊(60 : ℚ) + q * 30⌋ 100, ?_,
      le_min (Int.floor_nonneg.mpr harg) (by norm_num), min_le_right _ _⟩
    simp only [calculateJobMatchScore, hq, JSNum.mul, JSNum.add, if_neg hexp,
      JSNum.jsFloor, JSNum.min2]
    congr 1
    push_cast
    ring_nf

theorem calculateRecommendationScore_range (c : CourseDoc)
    (userProfile : UserProfile) (h1 : c.skillsTaught ≠ [])
    (h2 : 0 ≤ c.qualityScore) (h3 : c.qualityScore ≤ 10)
    (h4 : 0 ≤ c.enrollmentCount)
    (h5 : ∀ r ∈ c.ratingAverage, 0 ≤ r ∧ r ≤ 5)
    (h6 : ∀ cr ∈ c.completionRate, 0 ≤ cr ∧ cr ≤ 1) :
    ∃ q : ℚ, calculateRecommendationScore c userProfile = JSNum.num q ∧
      0 ≤ q ∧ q ≤ 100 := by
  obtain ⟨s, hs, hs0, hs1⟩ := courseSkillsSubscore_num c userProfile h1
  obtain ⟨hp0, hp1⟩ := popularityScore_bounds c h4 h5 h6
  by_cases hcm : (c.careerPaths.contains userProfile.targetJobTitle ∨
      c.jobRoles.contains userProfile.targetJobTitle)
  · refine ⟨s * (4/10) + 3/10 + c.qualityScore / 10 * (2/10) +
      popularityScore c * (1/10), ?_, by nlinarith, by nlinarith⟩
    simp only [calculateRecommendationScore, hs, JSNum.mul, JSNum.add, if_pos hcm]
  · refine ⟨s * (4/10) + 0 + c.qualityScore / 10 * (2/10) +
      popularityScore c * (1/10), ?_, by nlinarith, by nlinarith⟩
    simp only [calculateRecommendationScore, hs, JSNum.mul, JSNum.add, if_neg hcm]

/-- C1 (counterexample): with an empty required-skill (resp. skills-taught)
list, both scorers return NaN — not a number clamped to [0,100]. -/
theorem score_nan_on_empty_required :
    calculateJobMatchScore emptyRequiredJob sampleSkills [] = JSNum.nan ∧
    calculateRecommendationScore emptySkillsCourse sampleProfile = JSNum.nan :=
  ⟨by decide, by decide⟩

/-- C1 (amended): for a job with a nonempty required-skill list the match
score is a finite integer in [0,100] (clamped above at 100); for a course
with a nonempty skills-taught list and schema-range metrics the
recommendation score is a finite number in [0,100] (in fact in [0,1], the
scorer's 0–1 scale); with an empty list either scorer returns NaN instead. -/
theorem score_in_range_of_nonempty :
    (∀ (job : DummyJob) (userSkills : List Skill) (userExperience : List String),
      job.requiredSkills ≠ [] →
        ∃ n : ℤ, calculateJobMatchScore job userSkills userExperience =
          JSNum.num n ∧ 0 ≤ n ∧ n ≤ 100) ∧
    (∀ (c : CourseDoc) (userProfile : UserProfile),
      c.skillsTaught ≠ [] → 0 ≤ c.qualityScore → c.qualityScore ≤ 10 →
      0 ≤ c.enrollmentCount → (∀ r ∈ c.ratingAverage, 0 ≤ r ∧ r ≤ 5) →
      (∀ cr ∈ c.completionRate, 0 ≤ cr ∧ cr ≤ 1) →
        ∃ q : ℚ, calculateRecommendationScore c userProfile = JSNum.num q ∧
          0 ≤ q ∧ q ≤ 100) :=
  ⟨calculateJobMatchScore_range, calculateRecommendationScore_range⟩

/-- A course with one taught skill and schema-range metrics, for the C1
witness. -/
def fullCourse : CourseDoc :=
  { title := "Advanced React Development", difficulty := "Advanced",
    prerequisites := [], skillsTaught := [⟨"React", "advanced"⟩],
    careerPaths := ["Frontend Developer"], jobRoles := [],
    qualityScore := 8, enrollmentCount := 5000, ratingAverage := none,
    completionRate := none }

/-- Witness for the amended C1 on the first dummy job and `fullCourse`. -/
theorem score_in_range_witness :
    (∃ n : ℤ, calculateJobMatchScore
        { title := "Senior Frontend Developer", company := "TechCorp Inc.",
          location := "San Francisco, CA", salary := "$120,000 - $150,000",
          matchScore := 92,
          requiredSkills := ["React", "JavaScript", "TypeScript"] }
        sampleSkills [] = JSNum.num n ∧ 0 ≤ n ∧ n ≤ 100) ∧
    (∃ q : ℚ, calculateRecommendationScore fullCourse sampleProfile =
      JSNum.num q ∧ 0 ≤ q ∧ q ≤ 100) := by
  constructor
  · exact score_in_range_of_nonempty.1 _ sampleSkills [] (by decide)
  · exact score_in_range_of_nonempty.2 fullCourse sampleProfile (by decide)
      (by norm_num [fullCourse]) (by norm_num [fullCourse])
      (by norm_num [fullCourse]) (by simp [fullCourse]) (by simp [fullCourse])

/-- C7 (code-bug evidence): the salary-floor comparison of `recommendJobs`
parses the displayed minimum salary and multiplies it by a further 1000
(`parseInt("120" + "000") * 1000 = 120000000`), so with a stated floor of
130000 no dummy job — all of whose displayed minimum salaries (120000,
100000, 110000) are below the floor — receives the −10 penalty: the
recommendations are identical with and without the floor.  (The −15 location
penalty path and the floor-at-0 are as claimed; the salary comparison is the
divergence.) -/
theorem salary_penalty_not_applied :
    parseSalaryMin "$120,000 - $150,000" = some 120000000 ∧
    parseSalaryMin "$100,000 - $130,000" = some 100000000 ∧
    parseSalaryMin "$110,000 - $140,000" = some 110000000 ∧
    ∀ (tape : ℕ → ℚ) (nowDays : ℤ) (resumeData : ResumeData),
      recommendJobs tape nowDays resumeData
          { location := none, salaryMin := some 130000 } =
        recommendJobs tape nowDays resumeData
          { location := none, salaryMin := none } :=
  ⟨by decide, by decide, by decide, fun tape nowDays resumeData => rfl⟩

theorem sortByDesc_eq_self (key : α → ℚ) :
    ∀ (l : List α), l.Pairwise (fun a b => key b ≤ key a) → sortByDesc key l = l := by
  intro l
  induction l with
  | nil => intro _; rfl
  | cons x xs ih =>
    intro h
    rw [List.pairwise_cons] at h
    simp only [sortByDesc, ih h.2]
    cases xs with
    | nil => rfl
    | cons y ys => simp only [insertDescBy, if_pos (h.1 y (List.mem_cons_self y ys))]

theorem recommendCourses_const_tape_scores (c : ℚ) :
    (recommendCourses (fun _ => c) [] "Web Development" none).map
        (fun r => r.relevanceScore) =
      [toFixed2 (min (c * (4/10) + 6/10 + 2/10) 1),
        toFixed2 (min (c * (4/10) + 6/10 + 2/10) 1),
        toFixed2 (min (c * (4/10) + 6/10 + 2/10) 1)] := by
  simp only [recommendCourses, effectiveLimit, DUMMY_COURSES, mapIdxFrom,
    List.map_nil]
  norm_num
  rw [sortByDesc_eq_self]
  · simp +decide
  · simp +decide [List.pairwise_cons]

/-- C5 (counterexample): two invocations of `recommendCourses` with
identical profile, career path and options, but different `Math.random`
streams (the constant draws 0 and 1/4, both legal values of `Math.random()`),
return different outputs — the relevance scores differ (0.8 vs 0.9), so the
operation is not a deterministic function of its stated inputs. -/
theorem recommendCourses_random_dependent :
    recommendCourses (fun _ => 0) [] "Web Development" none ≠
      recommendCourses (fun _ => 1/4) [] "Web Development" none := by
  intro h
  have hmap := congrArg (List.map (fun r => r.relevanceScore)) h
  rw [recommendCourses_const_tape_scores 0,
    recommendCourses_const_tape_scores (1/4)] at hmap
  have h0 : toFixed2 (min ((0:ℚ) * (4/10) + 6/10 + 2/10) 1) = 4/5 := by
    rw [show ((0:ℚ) * (4/10) + 6/10 + 2/10) = 4/5 by norm_num,
      min_eq_left (by norm_num : (4/5 : ℚ) ≤ 1), toFixed2,
      show ⌊(4/5 : ℚ) * 100 + 1/2⌋ = 80 from Int.floor_eq_iff.mpr (by norm_num)]
    norm_num
  have h4 : toFixed2 (min ((1/4:ℚ) * (4/10) + 6/10 + 2/10) 1) = 9/10 := by
    rw [show ((1/4:ℚ) * (4/10) + 6/10 + 2/10) = 9/10 by norm_num,
      min_eq_left (by norm_num : (9/10 : ℚ) ≤ 1), toFixed2,
      show ⌊(9/10 : ℚ) * 100 + 1/2⌋ = 90 from Int.floor_eq_iff.mpr (by norm_num)]
    norm_num
  rw [h0, h4] at hmap
  norm_num at hmap

/-- C5 (amended): the adjusted match scores and missing-skill lists of
`recommendJobs` are deterministic — independent of the `Math.random` stream
and of the clock — even though the surrounding annotation fields
(match reasons, application deadline, posted date) and `recommendCourses`'
relevance scores are not. -/
theorem job_scores_tape_independent :
    ∀ (resumeData : ResumeData) (preferences : JobPreferences)
      (tape1 tape2 : ℕ → ℚ) (now1 now2 : ℤ),
      (recommendJobs tape1 now1 resumeData preferences).map
          (fun r => (r.matchScore, r.missingSkills)) =
        (recommendJobs tape2 now2 resumeData preferences).map
          (fun r => (r.matchScore, r.missingSkills)) := by
  intro rd p t1 t2 n1 n2
  have hpair : (recommendJobsUnsorted t1 n1 rd p).map
      (fun r => (scoreKey r.matchScore, (r.matchScore, r.missingSkills))) =
      (recommendJobsUnsorted t2 n2 rd p).map
      (fun r => (scoreKey r.matchScore, (r.matchScore, r.missingSkills))) := rfl
  have hsorted := map_sortByDesc_congr (fun r : JobRec => scoreKey r.matchScore)
    (fun r => (r.matchScore, r.missingSkills)) _ _ hpair
  have h2 := congrArg (List.map Prod.snd) hsorted
  simpa [recommendJobs, List.map_map, Function.comp] using h2
